import Mathlib

/-!
Verification development for the Kalman-filter sensor-fusion module
(`SensorFusion.py`): a shallow embedding of the two filter classes
`kalman_filter_6dof` and `kalman_filter_velocity` over an arbitrary linear
ordered field, together with theorems checking the specification's claims.

Modelling conventions:
* Machine floats are modelled by an arbitrary `LinearOrderedField F`
  (instantiated at `ℚ` for concrete evaluations), so all arithmetic is exact.
* The transcendental functions used by the source (`np.sin`, `np.cos`,
  `np.tan`, `np.arctan2`, `np.sqrt`, `np.radians`, `np.degrees`) are opaque
  to every claim under check; they are passed in as an abstract `Trig`
  record of functions on `F`.
* `np.linalg.inv`, which the source applies only to 2×2 innovation
  covariances, raises `LinAlgError` on a singular argument; this is modelled
  by an explicit determinant test returning `Except` with a
  `numericalError`, and the exact adjugate inverse otherwise.
* A Python float division by zero raises `ZeroDivisionError`; the
  corresponding spot in `kalman_filter_velocity.update` is modelled by an
  explicit `dt = 0` test returning `zeroDivision`.
* `scipy.interpolate.UnivariateSpline` is external library code; it is
  modelled as an abstract `Spline` oracle producing the fitted curve, which
  is then re-evaluated at the original timestamps as the source does.
-/

namespace SensorFusion

open Matrix

/- Batteries marks the rational arithmetic operations `[irreducible]`;
re-enable unfolding locally so that concrete evaluations of the embedding
at rational inputs go through `decide`. -/
attribute [local semireducible] Rat.mul Rat.add Rat.sub Rat.inv

variable {F : Type} [LinearOrderedField F]

/-- Errors a step of either filter can raise: `numericalError` models
numpy's `LinAlgError` on inverting a singular matrix, `zeroDivision` models
Python's `ZeroDivisionError`. -/
inductive PyError where
  | numericalError
  | zeroDivision
deriving DecidableEq

/-- Abstract interface for the transcendental operations of numpy used in
`SensorFusion.py`; the claims under check hold for every interpretation. -/
structure Trig (F : Type) where
  sin : F → F
  cos : F → F
  tan : F → F
  atan2 : F → F → F
  sqrt : F → F
  radians : F → F
  degrees : F → F

/-- Python `lst.append(v)` followed by `lst.pop(0)`, the per-axis rolling
history update of both filters (source lines 100-105 and 226-231). -/
def appendPop (h : List F) (v : F) : List F := (h ++ [v]).tail

/-- `np.mean` of a list (sum divided by length). -/
def mean (l : List F) : F := l.sum / (l.length : F)

/-- Determinant of a 2×2 matrix, written out. -/
def det2 (M : Matrix (Fin 2) (Fin 2) F) : F := M 0 0 * M 1 1 - M 0 1 * M 1 0

/-- Exact inverse of a nonsingular 2×2 matrix (adjugate over determinant);
this is the value `np.linalg.inv` returns on a nonsingular argument. -/
def inv2 (M : Matrix (Fin 2) (Fin 2) F) : Matrix (Fin 2) (Fin 2) F :=
  (det2 M)⁻¹ • Matrix.of ![![M 1 1, -M 0 1], ![-M 1 0, M 0 0]]

/-- Mutable state of a `kalman_filter_6dof` instance: the fields assigned in
`reset` (source lines 51-63). -/
structure State6 (F : Type) where
  x : Matrix (Fin 4) (Fin 1) F
  P : Matrix (Fin 4) (Fin 4) F
  acc_x : List F
  acc_y : List F
  acc_z : List F

/-- Configuration of a `kalman_filter_6dof` instance: the coefficient
arrays assigned in `__init__` (source lines 39-49), never reset. -/
structure Config6 (F : Type) where
  Q : Matrix (Fin 4) (Fin 4) F
  R : Matrix (Fin 2) (Fin 2) F
  C : Matrix (Fin 2) (Fin 4) F

/-- Values of `Q`, `R` and `C` set by `kalman_filter_6dof.__init__`. -/
def cfg6init : Config6 F :=
  ⟨((1 : F) / 1000000) • Matrix.of ![![1, 0, 0, 0], ![0, 1, 0, 0], ![0, 0, 1, 0], ![0, 0, 0, 1]],
   ((1 : F) / 1000) • Matrix.of ![![1, 0], ![0, 10]],
   Matrix.of ![![1, 0, 0, 0], ![0, 0, 1, 0]]⟩

/-- `kalman_filter_6dof.reset` (source lines 51-63): zero state, identity
covariance, and two-element zero histories per axis. -/
def reset6 : State6 F :=
  ⟨(Matrix.of ![![0, 0, 0, 0]])ᵀ,
   Matrix.of ![![1, 0, 0, 0], ![0, 1, 0, 0], ![0, 0, 1, 0], ![0, 0, 0, 1]],
   [0, 0], [0, 0], [0, 0]⟩

/-- Transition matrix `A` built by `kalman_filter_6dof.update`
(source lines 127-130). -/
def A6 (dt : F) : Matrix (Fin 4) (Fin 4) F :=
  Matrix.of ![![1, -dt, 0, 0], ![0, 1, 0, 0], ![0, 0, 1, -dt], ![0, 0, 0, 1]]

/-- Control matrix `B` built by `kalman_filter_6dof.update`
(source lines 132-135). -/
def B6 (dt : F) : Matrix (Fin 4) (Fin 2) F :=
  Matrix.of ![![dt, 0], ![0, 0], ![0, dt], ![0, 0]]

/-- The control input (`measured_input`) of `kalman_filter_6dof.update`:
Euler angle derivatives of the gyroscope values (source lines 110-124, 138).
Gyroscope components are `(g.1, g.2.1, g.2.2) = (x, y, z)`. -/
def u6 (tr : Trig F) (st : State6 F) (g : F × F × F) : Matrix (Fin 2) (Fin 1) F :=
  (Matrix.of ![![tr.radians g.1
      + tr.sin (st.x 0 0) * tr.tan (st.x 2 0) * tr.radians g.2.2
      + tr.cos (st.x 0 0) * tr.tan (st.x 2 0) * tr.radians g.2.1,
    tr.cos (st.x 0 0) * tr.radians g.2.2 - tr.sin (st.x 0 0) * tr.radians g.2.1]])ᵀ

/-- The measurement (`acceleration_estimates`) of `kalman_filter_6dof.update`:
accelerometer-implied roll and pitch computed from the smoothed (rolling-mean)
accelerometer values (source lines 100-108, 117-118, 139). -/
def z6 (tr : Trig F) (st : State6 F) (a : F × F × F) : Matrix (Fin 2) (Fin 1) F :=
  (Matrix.of ![![tr.atan2 (mean (appendPop st.acc_z a.2.2))
      (tr.sqrt (mean (appendPop st.acc_y a.2.1) * mean (appendPop st.acc_y a.2.1)
        + mean (appendPop st.acc_x a.1) * mean (appendPop st.acc_x a.1))),
    tr.atan2 (-mean (appendPop st.acc_x a.1))
      (tr.sqrt (mean (appendPop st.acc_z a.2.2) * mean (appendPop st.acc_z a.2.2)
        + mean (appendPop st.acc_y a.2.1) * mean (appendPop st.acc_y a.2.1)))]])ᵀ

/-- Predicted covariance of `kalman_filter_6dof.update`, the first
assignment to `self.P` (source line 143). -/
def P1of6 (cfg : Config6 F) (st : State6 F) (dt : F) : Matrix (Fin 4) (Fin 4) F :=
  A6 dt * (st.P * (A6 dt)ᵀ) + cfg.Q

/-- Innovation covariance `S` of `kalman_filter_6dof.update`
(source line 147). -/
def Sof6 (cfg : Config6 F) (st : State6 F) (dt : F) : Matrix (Fin 2) (Fin 2) F :=
  cfg.C * (P1of6 cfg st dt * cfg.Cᵀ) + cfg.R

/-- Kalman gain `K` of `kalman_filter_6dof.update` (source line 148). -/
def Kof6 (cfg : Config6 F) (st : State6 F) (dt : F) : Matrix (Fin 4) (Fin 2) F :=
  P1of6 cfg st dt * (cfg.Cᵀ * inv2 (Sof6 cfg st dt))

/-- Predicted state `x_new` of `kalman_filter_6dof.update`
(source line 142). -/
def x1of6 (tr : Trig F) (st : State6 F) (g : F × F × F) (dt : F) :
    Matrix (Fin 4) (Fin 1) F :=
  A6 dt * st.x + B6 dt * u6 tr st g

/-- Corrected state of `kalman_filter_6dof.update` (source line 149). -/
def x2of6 (tr : Trig F) (cfg : Config6 F) (st : State6 F) (g a : F × F × F) (dt : F) :
    Matrix (Fin 4) (Fin 1) F :=
  x1of6 tr st g dt + Kof6 cfg st dt * (z6 tr st a - cfg.C * x1of6 tr st g dt)

/-- Final covariance of `kalman_filter_6dof.update`, the second assignment
to `self.P` (source line 152). -/
def newPof6 (cfg : Config6 F) (st : State6 F) (dt : F) : Matrix (Fin 4) (Fin 4) F :=
  (1 - Kof6 cfg st dt * cfg.C) * P1of6 cfg st dt

/-- `kalman_filter_6dof.update` (source lines 96-154), translated line by
line.  Gyroscope and accelerometer triples are `(x, y, z)`.  Returns the
updated instance state together with the returned `(roll, pitch)` pair in
degrees; raises `numericalError` where `np.linalg.inv S` would. -/
def update6 (tr : Trig F) (cfg : Config6 F) (st : State6 F)
    (gyroscope accelerometer : F × F × F) (dt : F) :
    Except PyError (State6 F × F × F) :=
  let acc_x := appendPop st.acc_x accelerometer.1
  let acc_y := appendPop st.acc_y accelerometer.2.1
  let acc_z := appendPop st.acc_z accelerometer.2.2
  let acc_x_mean := mean acc_x
  let acc_y_mean := mean acc_y
  let acc_z_mean := mean acc_z
  let gyro_x := tr.radians gyroscope.1
  let gyro_y := tr.radians gyroscope.2.1
  let gyro_z := tr.radians gyroscope.2.2
  let roll_current := st.x 0 0
  let pitch_current := st.x 2 0
  let accel_roll := tr.atan2 acc_z_mean (tr.sqrt (acc_y_mean * acc_y_mean + acc_x_mean * acc_x_mean))
  let accel_pitch := tr.atan2 (-acc_x_mean) (tr.sqrt (acc_z_mean * acc_z_mean + acc_y_mean * acc_y_mean))
  let roll_dot := gyro_x + tr.sin roll_current * tr.tan pitch_current * gyro_z
      + tr.cos roll_current * tr.tan pitch_current * gyro_y
  let pitch_dot := tr.cos roll_current * gyro_z - tr.sin roll_current * gyro_y
  let A : Matrix (Fin 4) (Fin 4) F := A6 dt
  let B : Matrix (Fin 4) (Fin 2) F := B6 dt
  let measured_input := (Matrix.of ![![roll_dot, pitch_dot]])ᵀ
  let acceleration_estimates := (Matrix.of ![![accel_roll, accel_pitch]])ᵀ
  let x_new := A * st.x + B * measured_input
  let P1 := A * (st.P * Aᵀ) + cfg.Q
  let y_new := acceleration_estimates - cfg.C * x_new
  let S := cfg.C * (P1 * cfg.Cᵀ) + cfg.R
  if det2 S = 0 then .error .numericalError else
  let K := P1 * (cfg.Cᵀ * inv2 S)
  let x2 := x_new + K * y_new
  let P2 := (1 - K * cfg.C) * P1
  .ok (⟨x2, P2, acc_x, acc_y, acc_z⟩, tr.degrees (x2 0 0), tr.degrees (x2 2 0))

/-- Mutable state of a `kalman_filter_velocity` instance: the fields
assigned in `reset` (source lines 210-222). -/
structure StateV (F : Type) where
  ac_x : List F
  ac_y : List F
  ac_z : List F
  x : Matrix (Fin 2) (Fin 1) F
  P : Matrix (Fin 2) (Fin 2) F
  current_position : F

/-- Configuration of a `kalman_filter_velocity` instance (source
lines 197-207). -/
structure ConfigV (F : Type) where
  Q : Matrix (Fin 2) (Fin 2) F
  R : Matrix (Fin 2) (Fin 2) F
  C : Matrix (Fin 2) (Fin 2) F

/-- Values of `Q`, `R` and `C` set by `kalman_filter_velocity.__init__`
(`Q_coeff = 0.0001`, `R_coeff = 0.001`). -/
def cfgVinit : ConfigV F :=
  ⟨((1 : F) / 10000) • Matrix.of ![![1, 0], ![0, 1]],
   ((1 : F) / 1000) • Matrix.of ![![1, 0], ![0, 10]],
   Matrix.of ![![1, 0], ![0, 1]]⟩

/-- `kalman_filter_velocity.reset` (source lines 210-222). -/
def resetV : StateV F :=
  ⟨[0, 0], [0, 0], [0, 0],
   (Matrix.of ![![0, 0]])ᵀ,
   Matrix.of ![![1, 0], ![0, 1]],
   0⟩

/-- Transition matrix `A` built by `kalman_filter_velocity.update`
(source lines 245-246). -/
def AV (dt : F) : Matrix (Fin 2) (Fin 2) F :=
  Matrix.of ![![1, dt], ![0, 1]]

/-- Control matrix `B` built by `kalman_filter_velocity.update`
(source lines 248-249). -/
def BV (dt : F) : Matrix (Fin 2) (Fin 1) F :=
  Matrix.of ![![-(dt ^ 2) / 2], ![dt]]

/-- Forward acceleration derived by `kalman_filter_velocity.update` from
the smoothed x-axis acceleration and the pitch angle (source lines
226-237).  Note the source pushes `accelerometer[0]` into all three axis
histories. -/
def aForwardV (tr : Trig F) (st : StateV F) (a : F × F × F) (pitch : F) : F :=
  mean (appendPop st.ac_x a.1) * tr.cos (tr.radians pitch)

/-- Control input (`measured_input`) of `kalman_filter_velocity.update`
(source line 252). -/
def uV (tr : Trig F) (st : StateV F) (a : F × F × F) (pitch : F) :
    Matrix (Fin 1) (Fin 1) F :=
  (Matrix.of ![![aForwardV tr st a pitch]])ᵀ

/-- Measurement of `kalman_filter_velocity.update`: the source builds the
1×1 array `estimates` from the position-derived speed, and numpy
broadcasting of `estimates - C.dot(x_new)` replicates that scalar across
both rows (source lines 241, 253, 260). -/
def zV (st : StateV F) (position dt : F) : Matrix (Fin 2) (Fin 1) F :=
  Matrix.of ![![(position - st.current_position) / dt],
    ![(position - st.current_position) / dt]]

/-- Predicted covariance of `kalman_filter_velocity.update`
(source line 257). -/
def P1ofV (cfg : ConfigV F) (st : StateV F) (dt : F) : Matrix (Fin 2) (Fin 2) F :=
  AV dt * (st.P * (AV dt)ᵀ) + cfg.Q

/-- Innovation covariance `S` of `kalman_filter_velocity.update`
(source line 261). -/
def SofV (cfg : ConfigV F) (st : StateV F) (dt : F) : Matrix (Fin 2) (Fin 2) F :=
  cfg.C * (P1ofV cfg st dt * cfg.Cᵀ) + cfg.R

/-- Kalman gain `K` of `kalman_filter_velocity.update` (source line 262). -/
def KofV (cfg : ConfigV F) (st : StateV F) (dt : F) : Matrix (Fin 2) (Fin 2) F :=
  P1ofV cfg st dt * (cfg.Cᵀ * inv2 (SofV cfg st dt))

/-- Predicted state `x_new` of `kalman_filter_velocity.update`
(source line 256). -/
def x1ofV (tr : Trig F) (st : StateV F) (a : F × F × F) (pitch dt : F) :
    Matrix (Fin 2) (Fin 1) F :=
  AV dt * st.x + BV dt * uV tr st a pitch

/-- Corrected state of `kalman_filter_velocity.update` (source line 263). -/
def x2ofV (tr : Trig F) (cfg : ConfigV F) (st : StateV F) (a : F × F × F)
    (pitch position dt : F) : Matrix (Fin 2) (Fin 1) F :=
  x1ofV tr st a pitch dt
    + KofV cfg st dt * (zV st position dt - cfg.C * x1ofV tr st a pitch dt)

/-- Final covariance of `kalman_filter_velocity.update` (source line 266). -/
def newPofV (cfg : ConfigV F) (st : StateV F) (dt : F) : Matrix (Fin 2) (Fin 2) F :=
  (1 - KofV cfg st dt * cfg.C) * P1ofV cfg st dt

/-- `kalman_filter_velocity.update` (source lines 225-268), translated line
by line.  The source pushes `accelerometer[0]` into all three axis
histories (lines 226-228).  `dt = 0` makes the Python division
`(position - self.current_position) / dt` raise `ZeroDivisionError`,
modelled as the `zeroDivision` error; no other validation of `dt` exists.
Returns the updated instance state and `self.x[1][0]`, the speed. -/
def updateV (tr : Trig F) (cfg : ConfigV F) (st : StateV F)
    (accelerometer : F × F × F) (pitch position dt : F) :
    Except PyError (StateV F × F) :=
  let ac_x := appendPop st.ac_x accelerometer.1
  let ac_y := appendPop st.ac_y accelerometer.1
  let ac_z := appendPop st.ac_z accelerometer.1
  let ac_x_mean := mean ac_x
  let ac_forward := ac_x_mean * tr.cos (tr.radians pitch)
  if dt = 0 then .error .zeroDivision else
  let speed_from_position := (position - st.current_position) / dt
  let A : Matrix (Fin 2) (Fin 2) F := AV dt
  let B : Matrix (Fin 2) (Fin 1) F := BV dt
  let measured_input := (Matrix.of ![![ac_forward]])ᵀ
  let estimates := Matrix.of ![![speed_from_position], ![speed_from_position]]
  let x_new := A * st.x + B * measured_input
  let P1 := A * (st.P * Aᵀ) + cfg.Q
  let y_new := estimates - cfg.C * x_new
  let S := cfg.C * (P1 * cfg.Cᵀ) + cfg.R
  if det2 S = 0 then .error .numericalError else
  let K := P1 * (cfg.Cᵀ * inv2 S)
  let x2 := x_new + K * y_new
  let P2 := (1 - K * cfg.C) * P1
  .ok (⟨ac_x, ac_y, ac_z, x2, P2, position⟩, x2 1 0)

/-- A dataset for `kalman_filter_6dof.analyze_dataset`: seven parallel
sequences `[time, gy_x, gy_y, gy_z, ac_x, ac_y, ac_z]` (source
lines 68-77). -/
structure Dataset6 (F : Type) where
  time : List F
  gy_x : List F
  gy_y : List F
  gy_z : List F
  ac_x : List F
  ac_y : List F
  ac_z : List F

/-- A dataset for `kalman_filter_velocity.analyze_dataset`: six parallel
sequences `[time, ac_x, ac_y, ac_z, pitch, position]` (source
lines 272-278). -/
structure DatasetV (F : Type) where
  time : List F
  ac_x : List F
  ac_y : List F
  ac_z : List F
  pitch : List F
  position : List F

/-- Abstract model of `scipy.interpolate.UnivariateSpline`: given the time
axis, the values and the smoothness coefficient, produce the fitted curve.
The spline algorithm is external library code; every claim under check
holds for each interpretation of `fit`. -/
structure Spline (F : Type) where
  fit : List F → List F → F → F → F

/-- `kalman_filter_6dof.smooth` / `kalman_filter_velocity.smooth` (source
lines 162-166 and 288-292): fit a smoothing spline and re-evaluate it at
the original timestamps. -/
def smooth (sp : Spline F) (arr_to_smooth time_arr : List F) (smooth_coeff : F) : List F :=
  time_arr.map (sp.fit time_arr arr_to_smooth smooth_coeff)

/-- `kalman_filter_6dof.zero` (source lines 156-160): subtract the mean of
the slice `arr[100:200]` from every element.  (With fewer than 101 input
samples the slice is empty; `np.mean` of an empty slice yields `nan` with
a warning, not an exception — here the empty mean is the junk value `0/0`.) -/
def zero (arr : List F) : List F :=
  let calib_val := mean ((arr.drop 100).take 100)
  arr.map (fun x => x - calib_val)

/-- The per-sample loop of `kalman_filter_6dof.analyze_dataset` (source
lines 82-86), over the list of indices `[1, ..., len-1]`; accumulates the
roll and pitch outputs and threads the instance state. -/
def loop6 (tr : Trig F) (cfg : Config6 F) (ds : Dataset6 F) :
    List Nat → State6 F → List F → List F →
    Except PyError (State6 F × List F × List F)
  | [], st, roll_arr, pitch_arr => .ok (st, roll_arr, pitch_arr)
  | i :: rest, st, roll_arr, pitch_arr =>
    match update6 tr cfg st
        (ds.gy_x.getD i 0, ds.gy_y.getD i 0, ds.gy_z.getD i 0)
        (ds.ac_x.getD i 0, ds.ac_y.getD i 0, ds.ac_z.getD i 0)
        (ds.time.getD i 0 - ds.time.getD (i - 1) 0) with
    | .error e => .error e
    | .ok (st2, roll, pitch) =>
      loop6 tr cfg ds rest st2 (roll_arr ++ [roll]) (pitch_arr ++ [pitch])

/-- `kalman_filter_6dof.analyze_dataset` (source lines 65-94): reset, run
the per-sample update over the whole dataset seeding the outputs with `0`,
then zero-offset both output sequences and smooth both with coefficient 1.
Returns the final instance state with the roll and pitch sequences. -/
def analyze_dataset6 (tr : Trig F) (cfg : Config6 F) (sp : Spline F)
    (st : State6 F) (ds : Dataset6 F) :
    Except PyError (State6 F × List F × List F) :=
  match loop6 tr cfg ds (List.range' 1 (ds.time.length - 1)) reset6 [0] [0] with
  | .error e => .error e
  | .ok (st2, roll_arr, pitch_arr) =>
    .ok (st2, smooth sp (zero roll_arr) ds.time 1, smooth sp (zero pitch_arr) ds.time 1)

/-- The per-sample loop of `kalman_filter_velocity.analyze_dataset`
(source lines 282-284). -/
def loopV (tr : Trig F) (cfg : ConfigV F) (ds : DatasetV F) :
    List Nat → StateV F → List F → Except PyError (StateV F × List F)
  | [], st, speed_arr => .ok (st, speed_arr)
  | i :: rest, st, speed_arr =>
    match updateV tr cfg st
        (ds.ac_x.getD i 0, ds.ac_y.getD i 0, ds.ac_z.getD i 0)
        (ds.pitch.getD i 0) (ds.position.getD i 0)
        (ds.time.getD i 0 - ds.time.getD (i - 1) 0) with
    | .error e => .error e
    | .ok (st2, speed) => loopV tr cfg ds rest st2 (speed_arr ++ [speed])

/-- `kalman_filter_velocity.analyze_dataset` (source lines 271-285): reset,
run the per-sample update over the whole dataset seeding the output with
`0`, and return the raw speed sequence.  No post-processing pass is
applied; the `sp` argument (the instance's smoothing backend) is unused. -/
def analyze_datasetV (tr : Trig F) (cfg : ConfigV F) (sp : Spline F)
    (st : StateV F) (ds : DatasetV F) :
    Except PyError (StateV F × List F) :=
  match loopV tr cfg ds (List.range' 1 (ds.time.length - 1)) resetV [0] with
  | .error e => .error e
  | .ok (st2, speed_arr) => .ok (st2, speed_arr)

/-- The batch pipeline claim C5 asserts for `kalman_filter_6dof`: per-sample
updates across the dataset, then baseline-offset removal (subtracting the
mean of samples at indices 100-200), then smoothing-spline curve smoothing
re-evaluated at the original timestamps. -/
def analyze_dataset6_claimed (tr : Trig F) (cfg : Config6 F) (sp : Spline F)
    (st : State6 F) (ds : Dataset6 F) :
    Except PyError (State6 F × List F × List F) :=
  match loop6 tr cfg ds (List.range' 1 (ds.time.length - 1)) reset6 [0] [0] with
  | .error e => .error e
  | .ok (st2, roll_arr, pitch_arr) =>
    .ok (st2, smooth sp (zero roll_arr) ds.time 1, smooth sp (zero pitch_arr) ds.time 1)

/-- The batch pipeline claim C5 asserts for `kalman_filter_velocity`:
per-sample updates across the dataset, then baseline-offset removal,
then smoothing-spline curve smoothing at the original timestamps. -/
def analyze_datasetV_claimed (tr : Trig F) (cfg : ConfigV F) (sp : Spline F)
    (st : StateV F) (ds : DatasetV F) :
    Except PyError (StateV F × List F) :=
  match loopV tr cfg ds (List.range' 1 (ds.time.length - 1)) resetV [0] with
  | .error e => .error e
  | .ok (st2, speed_arr) => .ok (st2, smooth sp (zero speed_arr) ds.time 1)

/-- The predict and update equations exactly as claim C1 (spec §4.1) states
them: `x1 = A·x + B·u`, `P1 = A·P·Aᵗ + Q`, `y = z − C·x1`,
`S = C·P1·Cᵗ + R`, `K = P1·Cᵗ·S⁻¹`, final state `x1 + K·y`, final
covariance `(I − K·C)·P1`.  Both filters measure two components, so the
inverse is the 2×2 `inv2`. -/
def kalmanPredictUpdate {n k : ℕ} (x : Matrix (Fin n) (Fin 1) F)
    (P : Matrix (Fin n) (Fin n) F) (A : Matrix (Fin n) (Fin n) F)
    (B : Matrix (Fin n) (Fin k) F) (u : Matrix (Fin k) (Fin 1) F)
    (C : Matrix (Fin 2) (Fin n) F) (z : Matrix (Fin 2) (Fin 1) F)
    (Q : Matrix (Fin n) (Fin n) F) (R : Matrix (Fin 2) (Fin 2) F) :
    Matrix (Fin n) (Fin 1) F × Matrix (Fin n) (Fin n) F :=
  let x1 := A * x + B * u
  let P1 := A * P * Aᵀ + Q
  let y := z - C * x1
  let S := C * P1 * Cᵀ + R
  let K := P1 * Cᵀ * inv2 S
  (x1 + K * y, (1 - K * C) * P1)

/-- A square matrix is symmetric positive semi-definite: its transpose is
itself and its quadratic form is nonnegative.  This is the exact-arithmetic
formalisation of the spec's covariance well-formedness invariant
(eigenvalues of a symmetric matrix are all nonnegative iff the quadratic
form is). -/
def PosSemidef' {ι : Type} [Fintype ι] (M : Matrix ι ι F) : Prop :=
  Mᵀ = M ∧ ∀ v : ι → F, 0 ≤ v ⬝ᵥ M *ᵥ v

/-- A square matrix is symmetric positive definite. -/
def PosDef' {ι : Type} [Fintype ι] (M : Matrix ι ι F) : Prop :=
  Mᵀ = M ∧ ∀ v : ι → F, v ≠ 0 → 0 < v ⬝ᵥ M *ᵥ v

/-- Concrete interpretation of the transcendental functions used to
evaluate the embedding at rational inputs. -/
def trigQ : Trig ℚ :=
  ⟨fun _ => 0, fun _ => 1, fun _ => 0, fun y x => y + x, fun q => q, fun q => q, fun q => q⟩

/-- Concrete zero spline oracle. -/
def splineQ : Spline ℚ := ⟨fun _ _ _ _ => 0⟩

/-- Concrete constant-42 spline oracle. -/
def spline42 : Spline ℚ := ⟨fun _ _ _ _ => 42⟩

/-- Two-sample velocity dataset `[time, ac_x, ac_y, ac_z, pitch, position]`. -/
def dsV2 : DatasetV ℚ := ⟨[0, 1], [0, 1], [0, 0], [0, 0], [0, 0], [0, 1]⟩

/-- Two-sample orientation dataset. -/
def ds62 : Dataset6 ℚ := ⟨[0, 1], [0, 0], [0, 0], [0, 0], [0, 0], [0, 0], [0, 0]⟩

/-- Five-sample orientation dataset (shorter than the 200-sample
calibration window). -/
def ds65 : Dataset6 ℚ :=
  ⟨[0, 1, 2, 3, 4], [0, 0, 0, 0, 0], [0, 0, 0, 0, 0], [0, 0, 0, 0, 0],
   [0, 0, 0, 0, 0], [0, 0, 0, 0, 0], [0, 0, 0, 0, 0]⟩

/-- Configuration with zero noise matrices (the coefficient arrays are
documented as modifiable), which makes the innovation covariance singular
from a zero covariance. -/
def cfg6zero : Config6 ℚ := ⟨0, 0, Matrix.of ![![1, 0, 0, 0], ![0, 0, 1, 0]]⟩

/-- Orientation state with zero covariance. -/
def st6zero : State6 ℚ := ⟨0, 0, [0, 0], [0, 0], [0, 0]⟩

/-- Velocity configuration with zero noise matrices. -/
def cfgVzero : ConfigV ℚ := ⟨0, 0, Matrix.of ![![1, 0], ![0, 1]]⟩

/-- Velocity state with zero covariance. -/
def stVzero : StateV ℚ := ⟨[0, 0], [0, 0], [0, 0], 0, 0, 0⟩

/-- Closed form of `update6` in terms of the named staged quantities. -/
theorem update6_eq (tr : Trig F) (cfg : Config6 F) (st : State6 F)
    (g a : F × F × F) (dt : F) :
    update6 tr cfg st g a dt =
      if det2 (Sof6 cfg st dt) = 0 then .error .numericalError
      else .ok (⟨x2of6 tr cfg st g a dt, newPof6 cfg st dt,
          appendPop st.acc_x a.1, appendPop st.acc_y a.2.1, appendPop st.acc_z a.2.2⟩,
        tr.degrees (x2of6 tr cfg st g a dt 0 0),
        tr.degrees (x2of6 tr cfg st g a dt 2 0)) := rfl

/-- Closed form of `updateV` in terms of the named staged quantities. -/
theorem updateV_eq (tr : Trig F) (cfg : ConfigV F) (st : StateV F)
    (a : F × F × F) (pitch position dt : F) :
    updateV tr cfg st a pitch position dt =
      if dt = 0 then .error .zeroDivision
      else if det2 (SofV cfg st dt) = 0 then .error .numericalError
      else .ok (⟨appendPop st.ac_x a.1, appendPop st.ac_y a.1, appendPop st.ac_z a.1,
          x2ofV tr cfg st a pitch position dt, newPofV cfg st dt, position⟩,
        x2ofV tr cfg st a pitch position dt 1 0) := rfl

lemma posDef'_posSemidef' {ι : Type} [Fintype ι] {M : Matrix ι ι F}
    (hM : PosDef' M) : PosSemidef' M := by
  refine ⟨hM.1, fun v => ?_⟩
  rcases eq_or_ne v 0 with hv | hv
  · rw [hv, Matrix.zero_dotProduct]
  · exact (hM.2 v hv).le

lemma posSemidef'_add {ι : Type} [Fintype ι] {M N : Matrix ι ι F}
    (hM : PosSemidef' M) (hN : PosSemidef' N) : PosSemidef' (M + N) := by
  refine ⟨by rw [Matrix.transpose_add, hM.1, hN.1], fun v => ?_⟩
  rw [Matrix.add_mulVec, Matrix.dotProduct_add]
  exact add_nonneg (hM.2 v) (hN.2 v)

lemma posDef'_add_posSemidef' {ι : Type} [Fintype ι] {M N : Matrix ι ι F}
    (hM : PosSemidef' M) (hN : PosDef' N) : PosDef' (M + N) := by
  refine ⟨by rw [Matrix.transpose_add, hM.1, hN.1], fun v hv => ?_⟩
  rw [Matrix.add_mulVec, Matrix.dotProduct_add]
  exact add_pos_of_nonneg_of_pos (hM.2 v) (hN.2 v hv)

/-- Congruence: `B * M * Bᵀ` is positive semi-definite when `M` is. -/
lemma posSemidef'_conj {ι κ : Type} [Fintype ι] [Fintype κ]
    (B : Matrix ι κ F) {M : Matrix κ κ F} (hM : PosSemidef' M) :
    PosSemidef' (B * M * Bᵀ) := by
  constructor
  · rw [Matrix.transpose_mul, Matrix.transpose_mul, Matrix.transpose_transpose, hM.1,
      ← Matrix.mul_assoc]
  · intro v
    rw [← Matrix.mulVec_mulVec, ← Matrix.mulVec_mulVec, Matrix.dotProduct_mulVec,
      ← Matrix.mulVec_transpose]
    exact hM.2 (Bᵀ *ᵥ v)

/-- A positive definite 2×2 matrix has nonzero determinant. -/
lemma posDef'_det2_ne_zero {S : Matrix (Fin 2) (Fin 2) F} (hS : PosDef' S) :
    det2 S ≠ 0 := by
  intro h
  have hdet : S.det = 0 := by rw [Matrix.det_fin_two]; exact h
  obtain ⟨v, hv0, hv⟩ := Matrix.exists_mulVec_eq_zero_iff.mpr hdet
  have hlt := hS.2 v hv0
  rw [hv, Matrix.dotProduct_zero] at hlt
  exact lt_irrefl 0 hlt

/-- The explicit 2×2 inverse is a left inverse on nonsingular input. -/
lemma inv2_mul_self {M : Matrix (Fin 2) (Fin 2) F} (h : det2 M ≠ 0) :
    inv2 M * M = 1 := by
  have hd : M 0 0 * M 1 1 - M 0 1 * M 1 0 ≠ 0 := h
  ext i j
  fin_cases i <;> fin_cases j <;>
    simp [inv2, det2, Matrix.mul_apply, Fin.sum_univ_two, Matrix.smul_apply, smul_eq_mul,
      Matrix.one_apply] <;>
    field_simp <;> ring

/-- Core covariance-update fact: if `P1` is symmetric positive
semi-definite, `R` is symmetric positive definite, and `Sinv` is a left
inverse of the innovation covariance `C * (P1 * Cᵀ) + R`, then the updated
covariance `(I − K·C) · P1` with gain `K = P1 · (Cᵀ · Sinv)` is symmetric
positive semi-definite.  (In exact arithmetic the update equals the Joseph
form `(I − K·C)·P1·(I − K·C)ᵀ + K·R·Kᵀ`.) -/
lemma kalman_newP_posSemidef {ι κ : Type} [Fintype ι] [Fintype κ]
    [DecidableEq ι] [DecidableEq κ]
    (P1 : Matrix ι ι F) (C : Matrix κ ι F) (R Sinv : Matrix κ κ F)
    (hP1 : PosSemidef' P1) (hR : PosDef' R)
    (hinv : Sinv * (C * (P1 * Cᵀ) + R) = 1) :
    PosSemidef' ((1 - P1 * (Cᵀ * Sinv) * C) * P1) := by
  have hKS : P1 * (Cᵀ * Sinv) * (C * (P1 * Cᵀ) + R) = P1 * Cᵀ := by
    rw [Matrix.mul_assoc, Matrix.mul_assoc, hinv, Matrix.mul_one]
  have h1 : (1 - P1 * (Cᵀ * Sinv) * C) * P1 * Cᵀ = P1 * (Cᵀ * Sinv) * R := by
    calc (1 - P1 * (Cᵀ * Sinv) * C) * P1 * Cᵀ
        = (P1 - P1 * (Cᵀ * Sinv) * C * P1) * Cᵀ := by
          rw [Matrix.sub_mul, Matrix.one_mul]
      _ = P1 * Cᵀ - P1 * (Cᵀ * Sinv) * C * P1 * Cᵀ := by rw [Matrix.sub_mul]
      _ = P1 * Cᵀ - P1 * (Cᵀ * Sinv) * (C * (P1 * Cᵀ)) := by
          rw [Matrix.mul_assoc (P1 * (Cᵀ * Sinv) * C) P1 Cᵀ,
            Matrix.mul_assoc (P1 * (Cᵀ * Sinv)) C (P1 * Cᵀ)]
      _ = P1 * Cᵀ - P1 * (Cᵀ * Sinv) * ((C * (P1 * Cᵀ) + R) - R) := by
          rw [add_sub_cancel_right]
      _ = P1 * Cᵀ - (P1 * (Cᵀ * Sinv) * (C * (P1 * Cᵀ) + R) - P1 * (Cᵀ * Sinv) * R) := by
          rw [Matrix.mul_sub]
      _ = P1 * Cᵀ - (P1 * Cᵀ - P1 * (Cᵀ * Sinv) * R) := by rw [hKS]
      _ = P1 * (Cᵀ * Sinv) * R := by rw [sub_sub_cancel]
  have key : (1 - P1 * (Cᵀ * Sinv) * C) * P1
      = (1 - P1 * (Cᵀ * Sinv) * C) * P1 * (1 - P1 * (Cᵀ * Sinv) * C)ᵀ
        + (P1 * (Cᵀ * Sinv)) * R * (P1 * (Cᵀ * Sinv))ᵀ := by
    have ht : (1 - P1 * (Cᵀ * Sinv) * C)ᵀ = 1 - Cᵀ * (P1 * (Cᵀ * Sinv))ᵀ := by
      rw [Matrix.transpose_sub, Matrix.transpose_one, Matrix.transpose_mul]
    rw [ht, Matrix.mul_sub, Matrix.mul_one,
      ← Matrix.mul_assoc ((1 - P1 * (Cᵀ * Sinv) * C) * P1) Cᵀ ((P1 * (Cᵀ * Sinv))ᵀ), h1,
      Matrix.mul_assoc (P1 * (Cᵀ * Sinv)) R ((P1 * (Cᵀ * Sinv))ᵀ),
      ← Matrix.mul_assoc (P1 * (Cᵀ * Sinv)) R ((P1 * (Cᵀ * Sinv))ᵀ),
      sub_add_cancel]
  rw [key]
  exact posSemidef'_add (posSemidef'_conj _ hP1)
    (posSemidef'_conj _ (posDef'_posSemidef' hR))

/-- The predicted covariance of the orientation filter is positive
semi-definite when the previous covariance and `Q` are. -/
lemma posSemidef'_P1of6 (cfg : Config6 F) (st : State6 F) (dt : F)
    (hP : PosSemidef' st.P) (hQ : PosSemidef' cfg.Q) :
    PosSemidef' (P1of6 cfg st dt) := by
  have h := posSemidef'_conj (A6 dt) hP
  rw [Matrix.mul_assoc] at h
  exact posSemidef'_add h hQ

/-- The innovation covariance of the orientation filter is positive
definite when the previous covariance and `Q` are positive semi-definite
and `R` is positive definite. -/
lemma posDef'_Sof6 (cfg : Config6 F) (st : State6 F) (dt : F)
    (hP : PosSemidef' st.P) (hQ : PosSemidef' cfg.Q) (hR : PosDef' cfg.R) :
    PosDef' (Sof6 cfg st dt) := by
  have h := posSemidef'_conj cfg.C (posSemidef'_P1of6 cfg st dt hP hQ)
  rw [Matrix.mul_assoc] at h
  exact posDef'_add_posSemidef' h hR

/-- The predicted covariance of the velocity filter is positive
semi-definite when the previous covariance and `Q` are. -/
lemma posSemidef'_P1ofV (cfg : ConfigV F) (st : StateV F) (dt : F)
    (hP : PosSemidef' st.P) (hQ : PosSemidef' cfg.Q) :
    PosSemidef' (P1ofV cfg st dt) := by
  have h := posSemidef'_conj (AV dt) hP
  rw [Matrix.mul_assoc] at h
  exact posSemidef'_add h hQ

/-- The innovation covariance of the velocity filter is positive definite
under the same noise hypotheses. -/
lemma posDef'_SofV (cfg : ConfigV F) (st : StateV F) (dt : F)
    (hP : PosSemidef' st.P) (hQ : PosSemidef' cfg.Q) (hR : PosDef' cfg.R) :
    PosDef' (SofV cfg st dt) := by
  have h := posSemidef'_conj cfg.C (posSemidef'_P1ofV cfg st dt hP hQ)
  rw [Matrix.mul_assoc] at h
  exact posDef'_add_posSemidef' h hR

lemma posSemidef'_one {ι : Type} [Fintype ι] [DecidableEq ι] :
    PosSemidef' (1 : Matrix ι ι F) := by
  refine ⟨Matrix.transpose_one, fun v => ?_⟩
  rw [Matrix.one_mulVec]
  exact Finset.sum_nonneg fun i _ => mul_self_nonneg (v i)

lemma posSemidef'_smul {ι : Type} [Fintype ι] {M : Matrix ι ι F} (c : F)
    (hc : 0 ≤ c) (hM : PosSemidef' M) : PosSemidef' (c • M) := by
  refine ⟨by rw [Matrix.transpose_smul, hM.1], fun v => ?_⟩
  rw [Matrix.smul_mulVec_assoc, Matrix.dotProduct_smul, smul_eq_mul]
  exact mul_nonneg hc (hM.2 v)

lemma posDef'_smul {ι : Type} [Fintype ι] {M : Matrix ι ι F} (c : F)
    (hc : 0 < c) (hM : PosDef' M) : PosDef' (c • M) := by
  refine ⟨by rw [Matrix.transpose_smul, hM.1], fun v hv => ?_⟩
  rw [Matrix.smul_mulVec_assoc, Matrix.dotProduct_smul, smul_eq_mul]
  exact mul_pos hc (hM.2 v hv)

/-- A 2×2 diagonal matrix with positive diagonal is positive definite. -/
lemma posDef'_diag2 (p q : F) (hp : 0 < p) (hq : 0 < q) :
    PosDef' (Matrix.of ![![p, 0], ![0, q]]) := by
  constructor
  · ext i j
    fin_cases i <;> fin_cases j <;> simp [Matrix.transpose_apply]
  · intro v hv
    have hexp : v ⬝ᵥ (Matrix.of ![![p, 0], ![0, q]]) *ᵥ v
        = p * (v 0 * v 0) + q * (v 1 * v 1) := by
      simp [Matrix.dotProduct, Matrix.mulVec, Fin.sum_univ_two]
      ring
    rw [hexp]
    obtain ⟨i, hi⟩ := Function.ne_iff.mp hv
    rw [Pi.zero_apply] at hi
    fin_cases i
    · exact add_pos_of_pos_of_nonneg (mul_pos hp (mul_self_pos.mpr hi))
        (mul_nonneg hq.le (mul_self_nonneg _))
    · exact add_pos_of_nonneg_of_pos (mul_nonneg hp.le (mul_self_nonneg _))
        (mul_pos hq (mul_self_pos.mpr hi))

/-- The explicit 4×4 identity literal of `__init__`/`reset` is `1`. -/
lemma id4_eq :
    (Matrix.of ![![(1:F), 0, 0, 0], ![0, 1, 0, 0], ![0, 0, 1, 0], ![0, 0, 0, 1]])
      = (1 : Matrix (Fin 4) (Fin 4) F) := by
  ext i j
  fin_cases i <;> fin_cases j <;> rfl

lemma posSemidef'_reset6_P : PosSemidef' (reset6 : State6 F).P := by
  show PosSemidef'
    (Matrix.of ![![(1:F), 0, 0, 0], ![0, 1, 0, 0], ![0, 0, 1, 0], ![0, 0, 0, 1]])
  rw [id4_eq]
  exact posSemidef'_one

lemma posSemidef'_cfg6init_Q : PosSemidef' (cfg6init : Config6 F).Q := by
  show PosSemidef' (((1:F) / 1000000)
    • Matrix.of ![![(1:F), 0, 0, 0], ![0, 1, 0, 0], ![0, 0, 1, 0], ![0, 0, 0, 1]])
  rw [id4_eq]
  exact posSemidef'_smul _ (by norm_num) posSemidef'_one

lemma posDef'_cfg6init_R : PosDef' (cfg6init : Config6 F).R :=
  posDef'_smul _ (by norm_num) (posDef'_diag2 1 10 one_pos (by norm_num))

lemma posDef'_resetV_P : PosDef' (resetV : StateV F).P :=
  posDef'_diag2 1 1 one_pos one_pos

lemma posSemidef'_cfgVinit_Q : PosSemidef' (cfgVinit : ConfigV F).Q :=
  posDef'_posSemidef'
    (posDef'_smul _ (by norm_num) (posDef'_diag2 1 1 one_pos one_pos))

lemma posDef'_cfgVinit_R : PosDef' (cfgVinit : ConfigV F).R :=
  posDef'_smul _ (by norm_num) (posDef'_diag2 1 10 one_pos (by norm_num))

/-- Each successful pass of the orientation loop appends exactly one roll
and one pitch sample per index. -/
lemma loop6_lengths (tr : Trig F) (cfg : Config6 F) (ds : Dataset6 F) :
    ∀ (idxs : List Nat) (st : State6 F) (roll_arr pitch_arr : List F)
      (r : State6 F × List F × List F),
      loop6 tr cfg ds idxs st roll_arr pitch_arr = .ok r →
      r.2.1.length = roll_arr.length + idxs.length
        ∧ r.2.2.length = pitch_arr.length + idxs.length := by
  intro idxs
  induction idxs with
  | nil =>
    intro st roll_arr pitch_arr r h
    rw [loop6] at h
    injection h with h2
    subst h2
    simp
  | cons i rest ih =>
    intro st roll_arr pitch_arr r h
    rw [loop6] at h
    split at h
    · exact Except.noConfusion h
    · rename_i st2 roll pitch
      have hlen := ih _ _ _ r h
      simp only [List.length_append, List.length_cons, List.length_nil] at hlen ⊢
      omega

/-- Each successful pass of the velocity loop appends exactly one speed
sample per index. -/
lemma loopV_lengths (tr : Trig F) (cfg : ConfigV F) (ds : DatasetV F) :
    ∀ (idxs : List Nat) (st : StateV F) (speed_arr : List F)
      (r : StateV F × List F),
      loopV tr cfg ds idxs st speed_arr = .ok r →
      r.2.length = speed_arr.length + idxs.length := by
  intro idxs
  induction idxs with
  | nil =>
    intro st speed_arr r h
    rw [loopV] at h
    injection h with h2
    subst h2
    simp
  | cons i rest ih =>
    intro st speed_arr r h
    rw [loopV] at h
    split at h
    · exact Except.noConfusion h
    · rename_i st2 speed
      have hlen := ih _ _ r h
      simp only [List.length_append, List.length_cons, List.length_nil] at hlen ⊢
      omega

/-- The rolling histories keep their two-element size across an update. -/
lemma appendPop_length {l : List F} (v : F) (h : l.length = 2) :
    (appendPop l v).length = 2 := by
  obtain ⟨a, b, rfl⟩ := List.length_eq_two.mp h
  rfl

/-- The smoothed per-axis value is the mean of the one retained prior
sample and the current sample. -/
lemma mean_appendPop_two {l : List F} (v : F) (h : l.length = 2) :
    mean (appendPop l v) = (l.getD 1 0 + v) / 2 := by
  obtain ⟨a, b, rfl⟩ := List.length_eq_two.mp h
  simp [appendPop, mean]

/-- Claim C1: every call to `kalman_filter_6dof.update` and
`kalman_filter_velocity.update` returns the state and stores the
covariance given by the Kalman predict/update equations
(`x1 = A·x + B·u`, `P1 = A·P·Aᵗ + Q`, `y = z − C·x1`, `S = C·P1·Cᵗ + R`,
`K = P1·Cᵗ·S⁻¹`, state `x1 + K·y`, covariance `(I − K·C)·P1`), whenever
the innovation covariance is invertible (velocity additionally needs
`dt ≠ 0` to reach the equations). -/
theorem C1_predict_update_equations
    (tr : Trig F) (cfg : Config6 F) (st : State6 F) (g a : F × F × F) (dt : F)
    (trv : Trig F) (cfgv : ConfigV F) (stv : StateV F) (av : F × F × F)
    (pitchv positionv dtv : F)
    (h6 : det2 (Sof6 cfg st dt) ≠ 0) (hdtv : dtv ≠ 0)
    (hv : det2 (SofV cfgv stv dtv) ≠ 0) :
    update6 tr cfg st g a dt = .ok
      (⟨(kalmanPredictUpdate st.x st.P (A6 dt) (B6 dt) (u6 tr st g) cfg.C
            (z6 tr st a) cfg.Q cfg.R).1,
        (kalmanPredictUpdate st.x st.P (A6 dt) (B6 dt) (u6 tr st g) cfg.C
            (z6 tr st a) cfg.Q cfg.R).2,
        appendPop st.acc_x a.1, appendPop st.acc_y a.2.1, appendPop st.acc_z a.2.2⟩,
       tr.degrees ((kalmanPredictUpdate st.x st.P (A6 dt) (B6 dt) (u6 tr st g) cfg.C
            (z6 tr st a) cfg.Q cfg.R).1 0 0),
       tr.degrees ((kalmanPredictUpdate st.x st.P (A6 dt) (B6 dt) (u6 tr st g) cfg.C
            (z6 tr st a) cfg.Q cfg.R).1 2 0))
    ∧ updateV trv cfgv stv av pitchv positionv dtv = .ok
      (⟨appendPop stv.ac_x av.1, appendPop stv.ac_y av.1, appendPop stv.ac_z av.1,
        (kalmanPredictUpdate stv.x stv.P (AV dtv) (BV dtv) (uV trv stv av pitchv) cfgv.C
            (zV stv positionv dtv) cfgv.Q cfgv.R).1,
        (kalmanPredictUpdate stv.x stv.P (AV dtv) (BV dtv) (uV trv stv av pitchv) cfgv.C
            (zV stv positionv dtv) cfgv.Q cfgv.R).2,
        positionv⟩,
       (kalmanPredictUpdate stv.x stv.P (AV dtv) (BV dtv) (uV trv stv av pitchv) cfgv.C
            (zV stv positionv dtv) cfgv.Q cfgv.R).1 1 0) := by
  have e6x : (kalmanPredictUpdate st.x st.P (A6 dt) (B6 dt) (u6 tr st g) cfg.C
      (z6 tr st a) cfg.Q cfg.R).1 = x2of6 tr cfg st g a dt := by
    simp only [kalmanPredictUpdate, x2of6, x1of6, Kof6, Sof6, P1of6, Matrix.mul_assoc]
  have e6P : (kalmanPredictUpdate st.x st.P (A6 dt) (B6 dt) (u6 tr st g) cfg.C
      (z6 tr st a) cfg.Q cfg.R).2 = newPof6 cfg st dt := by
    simp only [kalmanPredictUpdate, newPof6, Kof6, Sof6, P1of6, Matrix.mul_assoc]
  have evx : (kalmanPredictUpdate stv.x stv.P (AV dtv) (BV dtv) (uV trv stv av pitchv)
      cfgv.C (zV stv positionv dtv) cfgv.Q cfgv.R).1
      = x2ofV trv cfgv stv av pitchv positionv dtv := by
    simp only [kalmanPredictUpdate, x2ofV, x1ofV, KofV, SofV, P1ofV, Matrix.mul_assoc]
  have evP : (kalmanPredictUpdate stv.x stv.P (AV dtv) (BV dtv) (uV trv stv av pitchv)
      cfgv.C (zV stv positionv dtv) cfgv.Q cfgv.R).2 = newPofV cfgv stv dtv := by
    simp only [kalmanPredictUpdate, newPofV, KofV, SofV, P1ofV, Matrix.mul_assoc]
  constructor
  · rw [update6_eq, if_neg h6, e6x, e6P]
  · rw [updateV_eq, if_neg hdtv, if_neg hv, evx, evP]

/-- Witness for C1 at a concrete rational input. -/
theorem C1_predict_update_equations_witness :
    update6 trigQ cfg6init reset6 (0, 0, 0) (0, 0, 0) 1 = .ok
      (⟨(kalmanPredictUpdate reset6.x reset6.P (A6 1) (B6 1) (u6 trigQ reset6 (0, 0, 0))
            cfg6init.C (z6 trigQ reset6 (0, 0, 0)) cfg6init.Q cfg6init.R).1,
        (kalmanPredictUpdate reset6.x reset6.P (A6 1) (B6 1) (u6 trigQ reset6 (0, 0, 0))
            cfg6init.C (z6 trigQ reset6 (0, 0, 0)) cfg6init.Q cfg6init.R).2,
        appendPop reset6.acc_x 0, appendPop reset6.acc_y 0, appendPop reset6.acc_z 0⟩,
       trigQ.degrees ((kalmanPredictUpdate reset6.x reset6.P (A6 1) (B6 1)
            (u6 trigQ reset6 (0, 0, 0)) cfg6init.C (z6 trigQ reset6 (0, 0, 0))
            cfg6init.Q cfg6init.R).1 0 0),
       trigQ.degrees ((kalmanPredictUpdate reset6.x reset6.P (A6 1) (B6 1)
            (u6 trigQ reset6 (0, 0, 0)) cfg6init.C (z6 trigQ reset6 (0, 0, 0))
            cfg6init.Q cfg6init.R).1 2 0))
    ∧ updateV trigQ cfgVinit resetV (0, 0, 0) 0 0 1 = .ok
      (⟨appendPop resetV.ac_x 0, appendPop resetV.ac_y 0, appendPop resetV.ac_z 0,
        (kalmanPredictUpdate resetV.x resetV.P (AV 1) (BV 1) (uV trigQ resetV (0, 0, 0) 0)
            cfgVinit.C (zV resetV 0 1) cfgVinit.Q cfgVinit.R).1,
        (kalmanPredictUpdate resetV.x resetV.P (AV 1) (BV 1) (uV trigQ resetV (0, 0, 0) 0)
            cfgVinit.C (zV resetV 0 1) cfgVinit.Q cfgVinit.R).2,
        0⟩,
       (kalmanPredictUpdate resetV.x resetV.P (AV 1) (BV 1) (uV trigQ resetV (0, 0, 0) 0)
            cfgVinit.C (zV resetV 0 1) cfgVinit.Q cfgVinit.R).1 1 0) :=
  C1_predict_update_equations trigQ cfg6init reset6 (0, 0, 0) (0, 0, 0) 1
    trigQ cfgVinit resetV (0, 0, 0) 0 0 1 (by decide) (by decide) (by decide)

/-- Claim C2, counterexample: starting from a freshly reset
`kalman_filter_6dof` and pushing acceleration `(3, 0, 0)`, the x-axis
rolling history after the update holds 2 entries — not the claimed 3 —
and the smoothed value used is their mean `3/2` (a mean over the claimed
3 retained samples would be `1`). -/
theorem C2_counterexample :
    ((update6 trigQ cfg6init reset6 (0, 0, 0) (3, 0, 0) 1).toOption.map
        (fun r => (r.1.acc_x.length, r.1.acc_x, mean r.1.acc_x))
      = some (2, [0, 3], 3 / 2))
    ∧ ((update6 trigQ cfg6init reset6 (0, 0, 0) (3, 0, 0) 1).toOption.map
        (fun r => r.1.acc_x.length) ≠ some 3) := by
  constructor
  · decide
  · decide

/-- Claim C2 as amended: for every filter instance, each per-axis rolling
accelerometer history buffer holds exactly 2 entries (the one prior raw
reading plus the current one, FIFO with the oldest evicted on each
insert), and each step's smoothed acceleration for an axis is the mean of
that axis's 2 retained samples.  (In the velocity filter all three
buffers receive the x-axis reading.) -/
theorem C2_amended_two_sample_history
    (tr : Trig F) (cfg : Config6 F) (st : State6 F) (g a : F × F × F) (dt : F)
    (trv : Trig F) (cfgv : ConfigV F) (stv : StateV F) (av : F × F × F)
    (pitchv positionv dtv : F)
    (h1 : st.acc_x.length = 2) (h2 : st.acc_y.length = 2) (h3 : st.acc_z.length = 2)
    (k1 : stv.ac_x.length = 2) :
    ((update6 tr cfg st g a dt).toOption.map
        (fun r => (r.1.acc_x, r.1.acc_y, r.1.acc_z,
          mean r.1.acc_x, mean r.1.acc_y, mean r.1.acc_z))
      = (update6 tr cfg st g a dt).toOption.map
        (fun _ => (appendPop st.acc_x a.1, appendPop st.acc_y a.2.1, appendPop st.acc_z a.2.2,
          (st.acc_x.getD 1 0 + a.1) / 2, (st.acc_y.getD 1 0 + a.2.1) / 2,
          (st.acc_z.getD 1 0 + a.2.2) / 2)))
    ∧ (appendPop st.acc_x a.1).length = 2
    ∧ (appendPop st.acc_y a.2.1).length = 2
    ∧ (appendPop st.acc_z a.2.2).length = 2
    ∧ ((updateV trv cfgv stv av pitchv positionv dtv).toOption.map
        (fun r => (r.1.ac_x, r.1.ac_y, r.1.ac_z, mean r.1.ac_x))
      = (updateV trv cfgv stv av pitchv positionv dtv).toOption.map
        (fun _ => (appendPop stv.ac_x av.1, appendPop stv.ac_y av.1, appendPop stv.ac_z av.1,
          (stv.ac_x.getD 1 0 + av.1) / 2)))
    ∧ (appendPop stv.ac_x av.1).length = 2 := by
  refine ⟨?_, appendPop_length _ h1, appendPop_length _ h2, appendPop_length _ h3,
    ?_, appendPop_length _ k1⟩
  · rw [update6_eq]
    by_cases hd : det2 (Sof6 cfg st dt) = 0
    · rw [if_pos hd]
      rfl
    · rw [if_neg hd]
      simp [Except.toOption, mean_appendPop_two _ h1, mean_appendPop_two _ h2,
        mean_appendPop_two _ h3]
  · rw [updateV_eq]
    by_cases hdt : dtv = 0
    · rw [if_pos hdt]
      rfl
    · rw [if_neg hdt]
      by_cases hd : det2 (SofV cfgv stv dtv) = 0
      · rw [if_pos hd]
        rfl
      · rw [if_neg hd]
        simp [Except.toOption, mean_appendPop_two _ k1]

/-- Witness for the amended C2 at a concrete rational input. -/
theorem C2_amended_two_sample_history_witness :
    ((update6 trigQ cfg6init reset6 (0, 0, 0) (3, 0, 0) 1).toOption.map
        (fun r => (r.1.acc_x, r.1.acc_y, r.1.acc_z,
          mean r.1.acc_x, mean r.1.acc_y, mean r.1.acc_z))
      = (update6 trigQ cfg6init reset6 (0, 0, 0) (3, 0, 0) 1).toOption.map
        (fun _ => (appendPop reset6.acc_x 3, appendPop reset6.acc_y 0, appendPop reset6.acc_z 0,
          (reset6.acc_x.getD 1 0 + 3) / 2, (reset6.acc_y.getD 1 0 + 0) / 2,
          (reset6.acc_z.getD 1 0 + 0) / 2)))
    ∧ (appendPop (reset6 : State6 ℚ).acc_x 3).length = 2
    ∧ (appendPop (reset6 : State6 ℚ).acc_y 0).length = 2
    ∧ (appendPop (reset6 : State6 ℚ).acc_z 0).length = 2
    ∧ ((updateV trigQ cfgVinit resetV (4, 5, 6) 0 1 1).toOption.map
        (fun r => (r.1.ac_x, r.1.ac_y, r.1.ac_z, mean r.1.ac_x))
      = (updateV trigQ cfgVinit resetV (4, 5, 6) 0 1 1).toOption.map
        (fun _ => (appendPop resetV.ac_x 4, appendPop resetV.ac_y 4, appendPop resetV.ac_z 4,
          (resetV.ac_x.getD 1 0 + 4) / 2)))
    ∧ (appendPop (resetV : StateV ℚ).ac_x 4).length = 2 :=
  C2_amended_two_sample_history trigQ cfg6init reset6 (0, 0, 0) (3, 0, 0) 1
    trigQ cfgVinit resetV (4, 5, 6) 0 1 1 (by decide) (by decide) (by decide) (by decide)

/-- Claim C3: the code contains no `dt` validation at all.  A call to
`kalman_filter_velocity.update` with negative `dt` completes successfully
(no InvalidInput error is raised), and with `dt = 0` the division
`(position - self.current_position) / dt` raises a `ZeroDivisionError`
rather than an InvalidInput error — after the rolling histories have
already been mutated. -/
theorem C3_dt_not_validated :
    ((updateV trigQ cfgVinit resetV (1, 2, 3) 0 5 (-1 : ℚ)).toOption.isSome = true)
    ∧ updateV trigQ cfgVinit resetV (1, 2, 3) 0 5 (0 : ℚ) = .error .zeroDivision := by
  constructor
  · decide
  · rw [updateV_eq, if_pos rfl]

/-- Claim C4: for every step of either filter, if the covariance was
symmetric positive semi-definite before the step, `Q` and `R` are
symmetric positive semi-definite with `R` positive definite, and `dt` is
positive, then the step succeeds and the covariance it stores is
symmetric positive semi-definite. -/
theorem C4_covariance_posSemidef
    (tr : Trig F) (cfg : Config6 F) (st : State6 F) (g a : F × F × F) (dt : F)
    (trv : Trig F) (cfgv : ConfigV F) (stv : StateV F) (av : F × F × F)
    (pitchv positionv dtv : F)
    (hP6 : PosSemidef' st.P) (hQ6 : PosSemidef' cfg.Q) (hR6 : PosDef' cfg.R)
    (hdt6 : 0 < dt)
    (hPv : PosSemidef' stv.P) (hQv : PosSemidef' cfgv.Q) (hRv : PosDef' cfgv.R)
    (hdtv : 0 < dtv) :
    (∃ st2 roll pitch, update6 tr cfg st g a dt = .ok (st2, roll, pitch)
      ∧ PosSemidef' st2.P)
    ∧ (∃ st2 speed, updateV trv cfgv stv av pitchv positionv dtv = .ok (st2, speed)
      ∧ PosSemidef' st2.P) := by
  constructor
  · have hS : PosDef' (Sof6 cfg st dt) := posDef'_Sof6 cfg st dt hP6 hQ6 hR6
    have hd : det2 (Sof6 cfg st dt) ≠ 0 := posDef'_det2_ne_zero hS
    refine ⟨_, _, _, by rw [update6_eq, if_neg hd], ?_⟩
    exact kalman_newP_posSemidef (P1of6 cfg st dt) cfg.C cfg.R (inv2 (Sof6 cfg st dt))
      (posSemidef'_P1of6 cfg st dt hP6 hQ6) hR6 (inv2_mul_self hd)
  · have hS : PosDef' (SofV cfgv stv dtv) := posDef'_SofV cfgv stv dtv hPv hQv hRv
    have hd : det2 (SofV cfgv stv dtv) ≠ 0 := posDef'_det2_ne_zero hS
    refine ⟨_, _, by rw [updateV_eq, if_neg hdtv.ne', if_neg hd], ?_⟩
    exact kalman_newP_posSemidef (P1ofV cfgv stv dtv) cfgv.C cfgv.R (inv2 (SofV cfgv stv dtv))
      (posSemidef'_P1ofV cfgv stv dtv hPv hQv) hRv (inv2_mul_self hd)

/-- Witness for C4 at a concrete rational input. -/
theorem C4_covariance_posSemidef_witness :
    (∃ st2 roll pitch, update6 trigQ cfg6init reset6 (0, 0, 0) (0, 0, 0) 1
      = .ok (st2, roll, pitch) ∧ PosSemidef' st2.P)
    ∧ (∃ st2 speed, updateV trigQ cfgVinit resetV (0, 0, 0) 0 0 1
      = .ok (st2, speed) ∧ PosSemidef' st2.P) :=
  C4_covariance_posSemidef trigQ cfg6init reset6 (0, 0, 0) (0, 0, 0) 1
    trigQ cfgVinit resetV (0, 0, 0) 0 0 1
    posSemidef'_reset6_P posSemidef'_cfg6init_Q posDef'_cfg6init_R one_pos
    (posDef'_posSemidef' posDef'_resetV_P) posSemidef'_cfgVinit_Q posDef'_cfgVinit_R one_pos

/-- Claim C5, counterexample: `kalman_filter_velocity.analyze_dataset`
does not apply the two post-processing passes the claim asserts.  On a
concrete two-sample dataset with a (constant-42) spline backend, the
actual output differs from the output of the claimed
update-then-zero-then-smooth pipeline. -/
theorem C5_counterexample :
    (analyze_datasetV trigQ cfgVinit spline42 resetV dsV2).toOption.map (fun r => r.2)
      ≠ (analyze_datasetV_claimed trigQ cfgVinit spline42 resetV dsV2).toOption.map
          (fun r => r.2) := by
  decide

/-- Claim C5 as amended: `kalman_filter_6dof.analyze_dataset` runs the
per-sample Kalman update across the entire dataset and then applies
baseline-offset removal (subtracting the mean of samples at indices
100-200) followed by smoothing-spline curve smoothing re-evaluated at the
original timestamps; `kalman_filter_velocity.analyze_dataset` runs only
the per-sample updates and returns the raw speed sequence, applying
neither pass (its result does not depend on the smoothing backend at
all). -/
theorem C5_amended_postprocessing (tr : Trig F) (cfg : Config6 F) (sp : Spline F)
    (st : State6 F) (ds : Dataset6 F) (trv : Trig F) (cfgv : ConfigV F)
    (spv spv' : Spline F) (stv stv' : StateV F) (dsv : DatasetV F) :
    analyze_dataset6 tr cfg sp st ds = analyze_dataset6_claimed tr cfg sp st ds
    ∧ analyze_datasetV trv cfgv spv stv dsv = analyze_datasetV trv cfgv spv' stv' dsv :=
  ⟨rfl, rfl⟩

set_option maxRecDepth 8000 in
/-- Claim C6: a dataset shorter than the 200-sample calibration window is
not rejected.  On a concrete 5-sample dataset, `analyze_dataset`
completes successfully (the source takes `np.mean` of an empty slice and
silently produces output); no InvalidInput error exists in the code. -/
theorem C6_short_dataset_not_rejected :
    ds65.time.length < 200
    ∧ (analyze_dataset6 trigQ cfg6init splineQ reset6 ds65).toOption.isSome = true := by
  constructor
  · decide
  · decide

/-- Claim C7: whenever the innovation covariance `S` of a step of either
filter is singular, the step fails with the surfaced numerical error that
models numpy's `LinAlgError` (the velocity filter reaches the inversion
only when `dt ≠ 0`); no zero or other fallback value is substituted. -/
theorem C7_singular_innovation_error
    (tr : Trig F) (cfg : Config6 F) (st : State6 F) (g a : F × F × F) (dt : F)
    (trv : Trig F) (cfgv : ConfigV F) (stv : StateV F) (av : F × F × F)
    (pitchv positionv dtv : F)
    (h6 : det2 (Sof6 cfg st dt) = 0) (hdtv : dtv ≠ 0)
    (hv : det2 (SofV cfgv stv dtv) = 0) :
    update6 tr cfg st g a dt = .error .numericalError
    ∧ updateV trv cfgv stv av pitchv positionv dtv = .error .numericalError := by
  constructor
  · rw [update6_eq, if_pos h6]
  · rw [updateV_eq, if_neg hdtv, if_pos hv]

/-- Witness for C7: with zero noise matrices (the coefficient arrays are
modifiable) and zero covariance, `S` is the zero matrix and both updates
fail with the numerical error. -/
theorem C7_singular_innovation_error_witness :
    update6 trigQ cfg6zero st6zero (0, 0, 0) (0, 0, 0) 1 = .error .numericalError
    ∧ updateV trigQ cfgVzero stVzero (0, 0, 0) 0 0 1 = .error .numericalError :=
  C7_singular_innovation_error trigQ cfg6zero st6zero (0, 0, 0) (0, 0, 0) 1
    trigQ cfgVzero stVzero (0, 0, 0) 0 0 1 (by decide) (by decide) (by decide)

/-- Claim C8: on every non-empty dataset, a successful
`kalman_filter_6dof.analyze_dataset` returns roll and pitch sequences of
the same length as the input time sequence, and a successful
`kalman_filter_velocity.analyze_dataset` returns a speed sequence of the
same length as the input time sequence. -/
theorem C8_output_lengths (tr : Trig F) (cfg : Config6 F) (sp : Spline F)
    (st : State6 F) (ds : Dataset6 F) (trv : Trig F) (cfgv : ConfigV F)
    (spv : Spline F) (stv : StateV F) (dsv : DatasetV F)
    (h6 : ds.time ≠ []) (hv : dsv.time ≠ []) :
    (∀ r, analyze_dataset6 tr cfg sp st ds = .ok r →
      r.2.1.length = ds.time.length ∧ r.2.2.length = ds.time.length)
    ∧ (∀ r, analyze_datasetV trv cfgv spv stv dsv = .ok r →
      r.2.length = dsv.time.length) := by
  constructor
  · intro r h
    rw [analyze_dataset6] at h
    split at h
    · exact Except.noConfusion h
    · injection h with h2
      subst h2
      constructor <;> simp [smooth]
  · intro r h
    rw [analyze_datasetV] at h
    split at h
    · exact Except.noConfusion h
    · rename_i st2 speed_arr heq
      injection h with h2
      subst h2
      have hlen := loopV_lengths trv cfgv dsv _ _ _ _ heq
      have hpos : 0 < dsv.time.length := List.length_pos.mpr hv
      simp only [List.length_range', List.length_cons, List.length_nil] at hlen
      simp only [hlen]
      omega

/-- Witness for C8 on concrete two-sample datasets. -/
theorem C8_output_lengths_witness :
    ((analyze_dataset6 trigQ cfg6init splineQ reset6 ds62).toOption.map
      (fun r => (r.2.1.length, r.2.2.length)) = some (2, 2))
    ∧ ((analyze_datasetV trigQ cfgVinit splineQ resetV dsV2).toOption.map
      (fun r => r.2.length) = some 2) := by
  have h := C8_output_lengths trigQ cfg6init splineQ reset6 ds62
    trigQ cfgVinit splineQ resetV dsV2 (by decide) (by decide)
  constructor
  · cases hE : analyze_dataset6 trigQ cfg6init splineQ reset6 ds62 with
    | error e =>
      have hs : (analyze_dataset6 trigQ cfg6init splineQ reset6 ds62).toOption.isSome
          = true := by decide
      rw [hE] at hs
      exact absurd hs (by simp [Except.toOption])
    | ok r =>
      have hr := h.1 r hE
      show some (r.2.1.length, r.2.2.length) = some (2, 2)
      rw [hr.1, hr.2]
      rfl
  · cases hE : analyze_datasetV trigQ cfgVinit splineQ resetV dsV2 with
    | error e =>
      have hs : (analyze_datasetV trigQ cfgVinit splineQ resetV dsV2).toOption.isSome
          = true := by decide
      rw [hE] at hs
      exact absurd hs (by simp [Except.toOption])
    | ok r =>
      have hr := h.2 r hE
      show some r.2.length = some 2
      rw [hr]
      rfl

/-- Claim C9: both `analyze_dataset` methods reset the instance first and
depend only on the configuration and the dataset, so a second run on the
same instance — equivalently a reset followed by a re-run — produces
exactly the output of the first run, whatever state the instance carried
in. -/
theorem C9_rerun_deterministic (tr : Trig F) (cfg : Config6 F) (sp : Spline F)
    (st1 st2 : State6 F) (ds : Dataset6 F) (trv : Trig F) (cfgv : ConfigV F)
    (spv : Spline F) (stv1 stv2 : StateV F) (dsv : DatasetV F) :
    analyze_dataset6 tr cfg sp st1 ds = analyze_dataset6 tr cfg sp st2 ds
    ∧ analyze_datasetV trv cfgv spv stv1 dsv = analyze_datasetV trv cfgv spv stv2 dsv :=
  ⟨rfl, rfl⟩

/-- Claim C10: `kalman_filter_velocity.update` pushes `accelerometer[0]`
into all three axis histories and derives the forward acceleration from
the x-axis mean only, so its entire result — returned speed and every
component of the resulting state — is independent of the y and z
accelerometer components. -/
theorem C10_velocity_ignores_yz (tr : Trig F) (cfg : ConfigV F) (st : StateV F)
    (a0 a1 a2 b1 b2 pitch position dt : F) :
    updateV tr cfg st (a0, a1, a2) pitch position dt
      = updateV tr cfg st (a0, b1, b2) pitch position dt := rfl

end SensorFusion
